import Mathlib

/-!
Shallow embedding of the synchronization engine of the tg_hacker_news bot
(main.go): the story filter, message rendering, the JSON-file-backed story
store, and the per-item create / update / delete operations of the poll and
cleanup cycles.

Modelling conventions:
- time is an integer (seconds); machine int64 arithmetic never overflows in
  the relevant code paths, so plain Int is used;
- the Stories map of StorageData is an association list with map semantics
  (put overwrites by id, get finds the unique binding);
- the Telegram sink and the Hacker News source are modelled by explicit
  outcome values fed to the functions that call them, and every sink
  interaction is recorded in an event list;
- the durable write performed by storage.save after a mutation is recorded
  in the flushed flag of a step result (file-system success is abstracted).
-/

/-- Threshold constant from main.go. -/
def NumCommentsThreshold : Int := 5

/-- Threshold constant from main.go. -/
def ScoreThreshold : Int := 50

/-- The hot marker constant from main.go. -/
def Hot : String := "🔥"

/-- CleanupInterval is 24 hours, modelled in seconds. -/
def CleanupInterval : Int := 24 * 60 * 60

/-- The Story struct of main.go. The same Go struct is used both for the
freshly fetched item detail and for the record persisted in the store. -/
structure Story where
  id : Int
  url : String
  title : String
  descendants : Int
  score : Int
  type : String
  messageID : Int
  lastSave : Int
  deriving Repr, DecidableEq

/-- Story.shouldIgnore from main.go: the filter that excludes an item. -/
def Story.shouldIgnore (s : Story) : Bool :=
  (s.type != "story") || decide (s.score < ScoreThreshold) ||
    decide (s.descendants < NumCommentsThreshold) || (s.url == "")

/-- Bot.newsURL from main.go: the Hacker News discussion page for an item. -/
def newsURL (id : Int) : String :=
  "https://news.ycombinator.com/item?id=" ++ toString id

/-- One character of Go html.EscapeString. -/
def escapeChar (c : Char) : String :=
  if c = '&' then "&amp;"
  else if c = Char.ofNat 39 then "&#39;"
  else if c = '<' then "&lt;"
  else if c = '>' then "&gt;"
  else if c = Char.ofNat 34 then "&#34;"
  else String.singleton c

/-- Go html.EscapeString, used on the message title. -/
def escapeString (s : String) : String :=
  String.join (s.toList.map escapeChar)

structure InlineKeyboardButton where
  text : String
  url : String
  deriving Repr, DecidableEq

structure InlineKeyboardMarkup where
  inlineKeyboard : List (List InlineKeyboardButton)
  deriving Repr, DecidableEq

/-- Story.getReplyMarkup from main.go. The Go format string is
"Score: %d+%s", so a literal plus sign follows the number, and the
hot-marker suffix is a space followed by the Hot constant. -/
def Story.getReplyMarkup (s : Story) : InlineKeyboardMarkup :=
  let scoreSuffix := if s.score > 100 then " " ++ Hot else ""
  let commentSuffix := if s.descendants > 100 then " " ++ Hot else ""
  { inlineKeyboard :=
      [[{ text := "Score: " ++ toString s.score ++ "+" ++ scoreSuffix,
          url := s.url },
        { text := "Comments: " ++ toString s.descendants ++ "+" ++ commentSuffix,
          url := newsURL s.id }]] }

/-- The message text built in Bot.sendMessage:
fmt.Sprintf with a bold escaped title, two spaces, then the URL. -/
def sendMessageText (s : Story) : String :=
  "<b>" ++ escapeString s.title ++ "</b>  " ++ s.url

/-- The message text built in Bot.editMessage (the format expression is
duplicated in the Go source, hence a second definition). -/
def editMessageText (s : Story) : String :=
  "<b>" ++ escapeString s.title ++ "</b>  " ++ s.url

/-- The StorageData struct of main.go: the Stories map, modelled as an
association list with map semantics. -/
structure StorageData where
  stories : List (Int × Story)
  deriving Repr, DecidableEq

/-- Map lookup: b.storage.Stories[id]. -/
def StorageData.get? (st : StorageData) (id : Int) : Option Story :=
  (st.stories.find? (fun p => p.1 == id)).map Prod.snd

/-- Map insert / overwrite: b.storage.Stories[story.ID] = story. -/
def StorageData.put (st : StorageData) (s : Story) : StorageData :=
  ⟨(s.id, s) :: st.stories.filter (fun p => p.1 != s.id)⟩

/-- Map removal: delete(b.storage.Stories, id). -/
def StorageData.erase (st : StorageData) (id : Int) : StorageData :=
  ⟨st.stories.filter (fun p => p.1 != id)⟩

/-- Whether an id is currently tracked in the store. -/
def StorageData.tracks (st : StorageData) (id : Int) : Bool :=
  (st.get? id).isSome

/-- Bot.saveStory: stamp LastSave with the current time, overwrite the map
entry, then persist the whole store (the durable write is recorded by the
flushed flag of the calling step). -/
def saveStory (st : StorageData) (story : Story) (now : Int) : StorageData :=
  st.put { story with lastSave := now }

/-- A sink interaction issued by the bot, tagged with the story id the
surrounding goroutine is working on. -/
inductive Event where
  | send (id : Int) (text : String) (markup : InlineKeyboardMarkup)
  | edit (id : Int) (messageID : Int) (text : String) (markup : InlineKeyboardMarkup)
  | del (id : Int) (messageID : Int)
  deriving Repr, DecidableEq

def Event.isSend : Event → Bool
  | .send .. => true
  | _ => false

def Event.isEdit : Event → Bool
  | .edit .. => true
  | _ => false

def Event.itemId : Event → Int
  | .send i .. => i
  | .edit i .. => i
  | .del i .. => i

/-- Outcome of the sendMessage HTTP round trip as the Go code observes it:
the POST can fail at transport level, the body can fail to decode, or a
decoded Telegram response arrives. -/
inductive SendOutcome where
  | postError
  | decodeError
  | resp (ok : Bool) (errorCode : Int) (description : String) (messageID : Int)
  deriving Repr, DecidableEq

/-- Whether a send outcome is a success in the sense checked by the code
(response decoded and its OK flag set). -/
def sendOk : SendOutcome → Bool
  | .resp ok _ _ _ => ok
  | _ => false

/-- Outcome of the editMessage HTTP round trip. The Go code never decodes
the edit response body, so a transport-successful POST carries an opaque
body that the code discards. -/
inductive EditOutcome where
  | postError
  | resp (body : String)
  deriving Repr, DecidableEq

/-- Outcome of the deleteMessage HTTP round trip. -/
inductive DeleteOutcome where
  | postError
  | decodeError
  | resp (ok : Bool) (errorCode : Int) (description : String)
  deriving Repr, DecidableEq

/-- Result of one bot operation: the store afterwards, the sink calls
issued, whether storage.save ran, and whether the Go function returned a
non-nil error. -/
structure StepResult where
  storage : StorageData
  events : List Event
  flushed : Bool
  errored : Bool
  deriving Repr, DecidableEq

/-- Bot.sendMessage from main.go: filter guard, POST, decode, OK check;
on success the returned message id is stored and saveStory runs. -/
def sendMessage (st : StorageData) (story : Story) (out : SendOutcome) (now : Int) :
    StepResult :=
  if story.shouldIgnore then
    { storage := st, events := [], flushed := false, errored := false }
  else
    let ev := Event.send story.id (sendMessageText story) story.getReplyMarkup
    match out with
    | .postError => { storage := st, events := [ev], flushed := false, errored := true }
    | .decodeError => { storage := st, events := [ev], flushed := false, errored := true }
    | .resp ok _ _ mid =>
      if ok then
        { storage := saveStory st { story with messageID := mid } now,
          events := [ev], flushed := true, errored := false }
      else
        { storage := st, events := [ev], flushed := false, errored := true }

/-- Bot.editMessage from main.go: filter guard, POST, then saveStory.
The response body is never decoded, so any transport-successful POST is
followed by saveStory. -/
def editMessage (st : StorageData) (story : Story) (out : EditOutcome) (now : Int) :
    StepResult :=
  if story.shouldIgnore then
    { storage := st, events := [], flushed := false, errored := false }
  else
    let ev := Event.edit story.id story.messageID (editMessageText story) story.getReplyMarkup
    match out with
    | .postError => { storage := st, events := [ev], flushed := false, errored := true }
    | .resp _ =>
      { storage := saveStory st story now, events := [ev], flushed := true, errored := false }

/-- Helper for Go strings.Contains on character lists. -/
def charsContain (s pat : List Char) : Bool :=
  match s with
  | [] => pat.isEmpty
  | _ :: rest => pat.isPrefixOf s || charsContain rest pat

/-- Go strings.Contains. -/
def strContains (s pat : String) : Bool :=
  charsContain s.toList pat.toList

/-- An apostrophe, as a string. -/
def apos : String := String.singleton (Char.ofNat 39)

/-- Bot.shouldIgnoreDeleteError from main.go: Telegram error 400 with one
of two description substrings is treated as goal-already-achieved. -/
def shouldIgnoreDeleteError (errorCode : Int) (description : String) : Bool :=
  (errorCode == 400) &&
    (strContains description "message to delete not found" ||
     strContains description ("message can" ++ apos ++ "t be deleted"))

/-- Bot.deleteMessage from main.go: POST, decode, and unless the response
is a failure that is not classified as ignorable, remove the record from
the store and persist. -/
def deleteMessage (st : StorageData) (story : Story) (out : DeleteOutcome) :
    StepResult :=
  let ev := Event.del story.id story.messageID
  match out with
  | .postError => { storage := st, events := [ev], flushed := false, errored := true }
  | .decodeError => { storage := st, events := [ev], flushed := false, errored := true }
  | .resp ok ec desc =>
    if !ok && !(shouldIgnoreDeleteError ec desc) then
      { storage := st, events := [ev], flushed := false, errored := true }
    else
      { storage := st.erase story.id, events := [ev], flushed := true, errored := false }

/-- One candidate id of Bot.poll: the store lookup decides create versus
update; a fetch failure (details id = none) logs and skips the id. In the
update branch the freshly fetched story inherits the stored MessageID
before the edit. -/
def pollStep (details : Int → Option Story) (sendOut : Int → SendOutcome)
    (editOut : Int → EditOutcome) (now : Int) (st : StorageData) (id : Int) :
    StepResult :=
  match st.get? id with
  | none =>
    match details id with
    | none => { storage := st, events := [], flushed := false, errored := true }
    | some story => sendMessage st story (sendOut id) now
  | some stored =>
    match details id with
    | none => { storage := st, events := [], flushed := false, errored := true }
    | some story =>
      editMessage st { story with messageID := stored.messageID } (editOut id) now

/-- One whole poll cycle over the candidate id list, linearized (the Go
code runs the per-id goroutines under a semaphore; every store mutation is
serialized by the store lock, and the claims below concern lists of
distinct ids, for which the linearization is faithful). -/
def pollCycle (details : Int → Option Story) (sendOut : Int → SendOutcome)
    (editOut : Int → EditOutcome) (now : Int) :
    StorageData → List Int → StorageData × List Event
  | st, [] => (st, [])
  | st, id :: rest =>
    let r1 := pollStep details sendOut editOut now st id
    let r2 := pollCycle details sendOut editOut now r1.storage rest
    (r2.1, r1.events ++ r2.2)

/-- The selection step of Bot.cleanup: records whose LastSave is strictly
before now minus CleanupInterval. -/
def cleanupSelect (st : StorageData) (now : Int) : List Story :=
  (st.stories.filter (fun p => decide (p.2.lastSave < now - CleanupInterval))).map Prod.snd

/-- The state of the durable snapshot file at startup, as distinguished by
StorageData.load: absent, present but undecodable, or well formed. -/
inductive SnapshotState where
  | absent
  | malformed
  | wellFormed (stories : List (Int × Story))
  deriving Repr, DecidableEq

/-- StorageData.load from main.go: an absent file is not an error (the map
stays empty); a malformed file returns the decode error, leaving the fresh
empty map in place. The Bool is the returned error. -/
def StorageData.load (snap : SnapshotState) : StorageData × Bool :=
  match snap with
  | .absent => (⟨[]⟩, false)
  | .malformed => (⟨[]⟩, true)
  | .wellFormed m => (⟨m⟩, false)

/-- The Bot struct of main.go, restricted to the store (the http client and
config carry no state the claims mention). Named BotState because Bot is
taken by the order-theoretic bottom class. -/
structure BotState where
  storage : StorageData
  deriving Repr, DecidableEq

/-- NewBot from main.go: the load error is only logged as a warning (the
Bool component); NewBot itself always returns ok, so the fatal path in main
is never taken for a corrupt snapshot. -/
def NewBot (snap : SnapshotState) : Except String BotState × Bool :=
  let r := StorageData.load snap
  (Except.ok { storage := r.1 }, r.2)

/-! Basic lemmas about the store operations. -/

theorem find?_filter_ne (l : List (Int × Story)) (a i : Int) (hne : i ≠ a) :
    (l.filter (fun p => p.1 != a)).find? (fun p => p.1 == i) =
      l.find? (fun p => p.1 == i) := by
  induction l with
  | nil => rfl
  | cons x t ih =>
    by_cases hx : x.1 = a
    · have h1 : (x.1 != a) = false := by simp [hx]
      have h2 : (x.1 == i) = false := by
        simp only [beq_eq_false_iff_ne, ne_eq]
        intro h
        exact hne (by rw [← h, hx])
      simp [List.filter_cons, h1, List.find?_cons, h2, ih]
    · have h1 : (x.1 != a) = true := by simp [hx]
      by_cases hxi : x.1 = i
      · have h2 : (x.1 == i) = true := by simp [hxi]
        simp [List.filter_cons, h1, List.find?_cons, h2]
      · have h2 : (x.1 == i) = false := by simp [hxi]
        simp [List.filter_cons, h1, List.find?_cons, h2, ih]

theorem StorageData.get?_put (st : StorageData) (s : Story) (i : Int) :
    (st.put s).get? i = if i = s.id then some s else st.get? i := by
  by_cases h : i = s.id
  · subst h
    simp [StorageData.put, StorageData.get?, List.find?_cons]
  · have h2 : (s.id == i) = false := by
      simp only [beq_eq_false_iff_ne, ne_eq]
      exact fun hc => h hc.symm
    simp [StorageData.put, StorageData.get?, List.find?_cons, h2,
      find?_filter_ne st.stories s.id i h, h]

theorem StorageData.tracks_put (st : StorageData) (s : Story) (i : Int) :
    (st.put s).tracks i = ((i == s.id) || st.tracks i) := by
  unfold StorageData.tracks
  rw [StorageData.get?_put]
  by_cases h : i = s.id <;> simp [h]

theorem shouldIgnore_set_messageID (s : Story) (m : Int) :
    Story.shouldIgnore { s with messageID := m } = s.shouldIgnore := rfl

/-! Shape lemmas for the sink operations and the per-item poll step. -/

theorem sendMessage_storage_cases (st : StorageData) (story : Story) (out : SendOutcome)
    (now : Int) :
    (sendMessage st story out now).storage = st ∨
    ∃ mid, (sendMessage st story out now).storage =
      st.put { story with messageID := mid, lastSave := now } := by
  unfold sendMessage
  cases hi : story.shouldIgnore
  · cases out with
    | postError => simp [hi]
    | decodeError => simp [hi]
    | resp ok ec desc mid =>
      cases ok
      · simp [hi]
      · exact Or.inr ⟨mid, by simp [hi, saveStory]⟩
  · simp [hi]

theorem editMessage_storage_cases (st : StorageData) (story : Story) (out : EditOutcome)
    (now : Int) :
    (editMessage st story out now).storage = st ∨
    (editMessage st story out now).storage = st.put { story with lastSave := now } := by
  unfold editMessage
  cases hi : story.shouldIgnore
  · cases out with
    | postError => simp [hi]
    | resp body => simp [hi, saveStory]
  · simp [hi]

theorem sendMessage_events (st : StorageData) (story : Story) (out : SendOutcome) (now : Int) :
    (sendMessage st story out now).events =
      if story.shouldIgnore then []
      else [Event.send story.id (sendMessageText story) story.getReplyMarkup] := by
  unfold sendMessage
  cases hi : story.shouldIgnore
  · cases out with
    | postError => simp [hi]
    | decodeError => simp [hi]
    | resp ok ec desc mid => cases ok <;> simp [hi]
  · simp [hi]

theorem editMessage_events (st : StorageData) (story : Story) (out : EditOutcome) (now : Int) :
    (editMessage st story out now).events =
      if story.shouldIgnore then []
      else [Event.edit story.id story.messageID (editMessageText story)
              story.getReplyMarkup] := by
  unfold editMessage
  cases hi : story.shouldIgnore
  · cases out <;> simp [hi]
  · simp [hi]

theorem pollStep_storage_cases (details : Int → Option Story) (sendOut : Int → SendOutcome)
    (editOut : Int → EditOutcome) (now : Int) (st : StorageData) (id : Int) :
    (pollStep details sendOut editOut now st id).storage = st ∨
    ∃ s s2, details id = some s ∧ s2.id = s.id ∧
      (pollStep details sendOut editOut now st id).storage = st.put s2 := by
  unfold pollStep
  cases hg : st.get? id with
  | none =>
    cases hd : details id with
    | none => exact Or.inl rfl
    | some story =>
      rcases sendMessage_storage_cases st story (sendOut id) now with h | ⟨mid, h⟩
      · exact Or.inl h
      · exact Or.inr ⟨story, { story with messageID := mid, lastSave := now }, rfl, rfl, h⟩
  | some stored =>
    cases hd : details id with
    | none => exact Or.inl rfl
    | some story =>
      rcases editMessage_storage_cases st { story with messageID := stored.messageID }
          (editOut id) now with h | h
      · exact Or.inl h
      · exact Or.inr ⟨story, { story with messageID := stored.messageID, lastSave := now },
          rfl, rfl, h⟩

theorem pollStep_tracks_mono (details : Int → Option Story) (sendOut : Int → SendOutcome)
    (editOut : Int → EditOutcome) (now : Int) (st : StorageData) (id i : Int)
    (h : st.tracks i = true) :
    ((pollStep details sendOut editOut now st id).storage).tracks i = true := by
  rcases pollStep_storage_cases details sendOut editOut now st id with heq | ⟨s, s2, _, _, heq⟩
  · rw [heq]; exact h
  · rw [heq, StorageData.tracks_put, h, Bool.or_true]

theorem pollCycle_tracks_mono (details : Int → Option Story) (sendOut : Int → SendOutcome)
    (editOut : Int → EditOutcome) (now : Int) (ids : List Int) :
    ∀ (st : StorageData) (i : Int), st.tracks i = true →
      ((pollCycle details sendOut editOut now st ids).1).tracks i = true := by
  induction ids with
  | nil => intro st i h; exact h
  | cons id rest ih =>
    intro st i h
    exact ih _ _ (pollStep_tracks_mono details sendOut editOut now st id i h)

theorem pollStep_get?_other (details : Int → Option Story) (sendOut : Int → SendOutcome)
    (editOut : Int → EditOutcome) (now : Int) (st : StorageData) (id i : Int)
    (hid : ∀ s, details id = some s → s.id = id) (hne : i ≠ id) :
    ((pollStep details sendOut editOut now st id).storage).get? i = st.get? i := by
  rcases pollStep_storage_cases details sendOut editOut now st id with heq | ⟨s, s2, hd, hsid, heq⟩
  · rw [heq]
  · rw [heq, StorageData.get?_put, if_neg]
    rw [hsid, hid s hd]
    exact hne

theorem pollStep_fetch_fail (details : Int → Option Story) (sendOut : Int → SendOutcome)
    (editOut : Int → EditOutcome) (now : Int) (st : StorageData) (id : Int)
    (hd : details id = none) :
    pollStep details sendOut editOut now st id =
      { storage := st, events := [], flushed := false, errored := true } := by
  unfold pollStep
  cases hg : st.get? id <;> rw [hd]

theorem pollStep_untracked_eq (details : Int → Option Story) (sendOut : Int → SendOutcome)
    (editOut : Int → EditOutcome) (now : Int) (st : StorageData) (id : Int) (s : Story)
    (hg : st.get? id = none) (hd : details id = some s) :
    pollStep details sendOut editOut now st id = sendMessage st s (sendOut id) now := by
  unfold pollStep
  rw [hg, hd]

theorem pollStep_tracked_eq (details : Int → Option Story) (sendOut : Int → SendOutcome)
    (editOut : Int → EditOutcome) (now : Int) (st : StorageData) (id : Int) (s stored : Story)
    (hg : st.get? id = some stored) (hd : details id = some s) :
    pollStep details sendOut editOut now st id =
      editMessage st { s with messageID := stored.messageID } (editOut id) now := by
  unfold pollStep
  rw [hg, hd]

theorem pollStep_events_itemId (details : Int → Option Story) (sendOut : Int → SendOutcome)
    (editOut : Int → EditOutcome) (now : Int) (st : StorageData) (id : Int)
    (hid : ∀ s, details id = some s → s.id = id) :
    ∀ e ∈ (pollStep details sendOut editOut now st id).events, e.itemId = id := by
  intro e he
  cases hd : details id with
  | none =>
    rw [pollStep_fetch_fail details sendOut editOut now st id hd] at he
    simp at he
  | some s =>
    cases hg : st.get? id with
    | none =>
      rw [pollStep_untracked_eq details sendOut editOut now st id s hg hd,
        sendMessage_events] at he
      by_cases hi : s.shouldIgnore = true
      · rw [if_pos hi] at he
        simp at he
      · rw [if_neg hi] at he
        simp at he
        subst he
        exact hid s hd
    | some stored =>
      rw [pollStep_tracked_eq details sendOut editOut now st id s stored hg hd,
        editMessage_events] at he
      by_cases hi : Story.shouldIgnore { s with messageID := stored.messageID } = true
      · rw [if_pos hi] at he
        simp at he
      · rw [if_neg hi] at he
        simp at he
        subst he
        exact hid s hd

theorem pollStep_tracked_events_isEdit (details : Int → Option Story)
    (sendOut : Int → SendOutcome) (editOut : Int → EditOutcome) (now : Int)
    (st : StorageData) (id : Int) (stored : Story) (hg : st.get? id = some stored) :
    ∀ e ∈ (pollStep details sendOut editOut now st id).events, e.isEdit = true := by
  intro e he
  cases hd : details id with
  | none =>
    rw [pollStep_fetch_fail details sendOut editOut now st id hd] at he
    simp at he
  | some s =>
    rw [pollStep_tracked_eq details sendOut editOut now st id s stored hg hd,
      editMessage_events] at he
    by_cases hi : Story.shouldIgnore { s with messageID := stored.messageID } = true
    · rw [if_pos hi] at he
      simp at he
    · rw [if_neg hi] at he
      simp at he
      subst he
      rfl

theorem pollStep_untracked_included (details : Int → Option Story)
    (sendOut : Int → SendOutcome) (editOut : Int → EditOutcome) (now : Int)
    (st : StorageData) (id : Int) (s : Story)
    (hg : st.get? id = none) (hd : details id = some s) (hincl : s.shouldIgnore = false) :
    (pollStep details sendOut editOut now st id).events =
      [Event.send s.id (sendMessageText s) s.getReplyMarkup] ∧
    (∀ ec d mid, sendOut id = SendOutcome.resp true ec d mid →
      (pollStep details sendOut editOut now st id).storage =
        st.put { s with messageID := mid, lastSave := now } ∧
      (pollStep details sendOut editOut now st id).flushed = true) ∧
    (sendOk (sendOut id) = false →
      (pollStep details sendOut editOut now st id).storage = st ∧
      (pollStep details sendOut editOut now st id).flushed = false) := by
  rw [pollStep_untracked_eq details sendOut editOut now st id s hg hd]
  refine ⟨?_, ?_, ?_⟩
  · rw [sendMessage_events, if_neg (by simp [hincl])]
  · intro ec d mid ho
    rw [ho]
    unfold sendMessage
    simp [hincl, saveStory]
  · intro hko
    unfold sendMessage
    cases ho : sendOut id with
    | postError => simp [hincl]
    | decodeError => simp [hincl]
    | resp ok ec d mid =>
      rw [ho] at hko
      unfold sendOk at hko
      subst hko
      simp [hincl]

theorem pollStep_tracked_included (details : Int → Option Story)
    (sendOut : Int → SendOutcome) (editOut : Int → EditOutcome) (now : Int)
    (st : StorageData) (id : Int) (s stored : Story)
    (hg : st.get? id = some stored) (hd : details id = some s)
    (hincl : s.shouldIgnore = false) :
    (pollStep details sendOut editOut now st id).events =
      [Event.edit s.id stored.messageID
        (editMessageText { s with messageID := stored.messageID })
        (Story.getReplyMarkup { s with messageID := stored.messageID })] ∧
    (∀ body, editOut id = EditOutcome.resp body →
      (pollStep details sendOut editOut now st id).storage =
        st.put { s with messageID := stored.messageID, lastSave := now } ∧
      (pollStep details sendOut editOut now st id).flushed = true) ∧
    (editOut id = EditOutcome.postError →
      (pollStep details sendOut editOut now st id).storage = st ∧
      (pollStep details sendOut editOut now st id).flushed = false) := by
  rw [pollStep_tracked_eq details sendOut editOut now st id s stored hg hd]
  have hincl2 : Story.shouldIgnore { s with messageID := stored.messageID } = false := by
    rw [shouldIgnore_set_messageID]
    exact hincl
  refine ⟨?_, ?_, ?_⟩
  · rw [editMessage_events, if_neg (by simp [hincl2])]
  · intro body ho
    rw [ho]
    unfold editMessage
    simp [hincl2, saveStory]
  · intro ho
    rw [ho]
    unfold editMessage
    simp [hincl2]

theorem pollStep_tracked_excluded (details : Int → Option Story)
    (sendOut : Int → SendOutcome) (editOut : Int → EditOutcome) (now : Int)
    (st : StorageData) (id : Int) (s stored : Story)
    (hg : st.get? id = some stored) (hd : details id = some s)
    (hexc : s.shouldIgnore = true) :
    pollStep details sendOut editOut now st id =
      { storage := st, events := [], flushed := false, errored := false } := by
  rw [pollStep_tracked_eq details sendOut editOut now st id s stored hg hd]
  unfold editMessage
  have hexc2 : Story.shouldIgnore { s with messageID := stored.messageID } = true := by
    rw [shouldIgnore_set_messageID]
    exact hexc
  simp [hexc2]

theorem pollCycle_nil (details : Int → Option Story) (sendOut : Int → SendOutcome)
    (editOut : Int → EditOutcome) (now : Int) (st : StorageData) :
    pollCycle details sendOut editOut now st [] = (st, []) := rfl

theorem pollCycle_cons (details : Int → Option Story) (sendOut : Int → SendOutcome)
    (editOut : Int → EditOutcome) (now : Int) (st : StorageData) (id : Int)
    (rest : List Int) :
    pollCycle details sendOut editOut now st (id :: rest) =
      ((pollCycle details sendOut editOut now
          (pollStep details sendOut editOut now st id).storage rest).1,
        (pollStep details sendOut editOut now st id).events ++
          (pollCycle details sendOut editOut now
            (pollStep details sendOut editOut now st id).storage rest).2) := rfl

theorem details_id_unique (details : Int → Option Story) (id : Int) (s0 : Story)
    (h0 : details id = some s0) (hid0 : s0.id = id) :
    ∀ s, details id = some s → s.id = id := by
  intro s hs
  rw [h0] at hs
  injection hs with h
  rw [← h]
  exact hid0

theorem pollCycle_events_itemId (details : Int → Option Story) (sendOut : Int → SendOutcome)
    (editOut : Int → EditOutcome) (now : Int) :
    ∀ (ids : List Int) (st : StorageData),
      (∀ j ∈ ids, ∀ s, details j = some s → s.id = j) →
      ∀ e ∈ (pollCycle details sendOut editOut now st ids).2, e.itemId ∈ ids := by
  intro ids
  induction ids with
  | nil =>
    intro st _ e he
    rw [pollCycle_nil] at he
    simp at he
  | cons id rest ih =>
    intro st hid e he
    rw [pollCycle_cons] at he
    rcases List.mem_append.mp he with h1 | h2
    · have := pollStep_events_itemId details sendOut editOut now st id
        (hid id (List.mem_cons_self id rest)) e h1
      rw [this]
      exact List.mem_cons_self id rest
    · have := ih _ (fun j hj s hs => hid j (List.mem_cons_of_mem id hj) s hs) e h2
      exact List.mem_cons_of_mem id this

theorem filter_singleton_false {α : Type} {p : α → Bool} {e : α} (h : p e = false) :
    List.filter p [e] = [] := by
  simp [List.filter_cons, h]

theorem filter_singleton_true {α : Type} {p : α → Bool} {e : α} (h : p e = true) :
    List.filter p [e] = [e] := by
  simp [List.filter_cons, h]

theorem pollCycle_fresh_included (details : Int → Option Story) (sendOut : Int → SendOutcome)
    (editOut : Int → EditOutcome) (now : Int) :
    ∀ (ids : List Int) (st : StorageData),
      ids.Nodup →
      (∀ id ∈ ids, st.get? id = none) →
      (∀ id ∈ ids, ∃ s, details id = some s ∧ s.id = id ∧ s.shouldIgnore = false) →
      (∀ id ∈ ids, sendOk (sendOut id) = true) →
      (∀ id ∈ ids, ((pollCycle details sendOut editOut now st ids).1).tracks id = true) ∧
      (∀ id ∈ ids,
        (((pollCycle details sendOut editOut now st ids).2).filter
          (fun e => e.isSend && (e.itemId == id))).length = 1) := by
  intro ids
  induction ids with
  | nil =>
    intro st _ _ _ _
    exact ⟨fun id h => absurd h (List.not_mem_nil id),
      fun id h => absurd h (List.not_mem_nil id)⟩
  | cons id rest ih =>
    intro st hnd hfresh hdet hok
    obtain ⟨s, hd, hsid, hincl⟩ := hdet id (List.mem_cons_self id rest)
    have hg : st.get? id = none := hfresh id (List.mem_cons_self id rest)
    have hko := hok id (List.mem_cons_self id rest)
    obtain ⟨hev, hsucc, -⟩ :=
      pollStep_untracked_included details sendOut editOut now st id s hg hd hincl
    have hmid : ∃ ec d mid, sendOut id = SendOutcome.resp true ec d mid := by
      cases ho : sendOut id with
      | postError =>
        rw [ho] at hko
        exact absurd hko (by simp [sendOk])
      | decodeError =>
        rw [ho] at hko
        exact absurd hko (by simp [sendOk])
      | resp ok ec d mid =>
        rw [ho] at hko
        simp only [sendOk] at hko
        subst hko
        exact ⟨ec, d, mid, rfl⟩
    obtain ⟨ec, d, mid, ho⟩ := hmid
    obtain ⟨hst1, -⟩ := hsucc ec d mid ho
    have htr1 : ((pollStep details sendOut editOut now st id).storage).tracks id = true := by
      rw [hst1, StorageData.tracks_put]
      have hbeq : (id == Story.id { s with messageID := mid, lastSave := now }) = true := by
        simp [hsid]
      rw [hbeq, Bool.true_or]
    have hid1 : ∀ s2, details id = some s2 → s2.id = id :=
      details_id_unique details id s hd hsid
    have hnotin : id ∉ rest := (List.nodup_cons.mp hnd).1
    have hfresh1 : ∀ j ∈ rest,
        ((pollStep details sendOut editOut now st id).storage).get? j = none := by
      intro j hj
      have hne : j ≠ id := fun hc => hnotin (hc ▸ hj)
      rw [pollStep_get?_other details sendOut editOut now st id j hid1 hne]
      exact hfresh j (List.mem_cons_of_mem id hj)
    have hnd2 : rest.Nodup := (List.nodup_cons.mp hnd).2
    have hdet2 : ∀ j ∈ rest, ∃ s2, details j = some s2 ∧ s2.id = j ∧ s2.shouldIgnore = false :=
      fun j hj => hdet j (List.mem_cons_of_mem id hj)
    have hok2 : ∀ j ∈ rest, sendOk (sendOut j) = true :=
      fun j hj => hok j (List.mem_cons_of_mem id hj)
    obtain ⟨ihtr, ihcount⟩ :=
      ih (pollStep details sendOut editOut now st id).storage hnd2 hfresh1 hdet2 hok2
    have hid2 : ∀ j ∈ rest, ∀ s2, details j = some s2 → s2.id = j := by
      intro j hj
      obtain ⟨s2, h2a, h2b, -⟩ := hdet2 j hj
      exact details_id_unique details j s2 h2a h2b
    have h2 : (pollCycle details sendOut editOut now st (id :: rest)).2 =
        (pollStep details sendOut editOut now st id).events ++
          (pollCycle details sendOut editOut now
            (pollStep details sendOut editOut now st id).storage rest).2 := by
      rw [pollCycle_cons]
    have h1 : (pollCycle details sendOut editOut now st (id :: rest)).1 =
        (pollCycle details sendOut editOut now
          (pollStep details sendOut editOut now st id).storage rest).1 := by
      rw [pollCycle_cons]
    constructor
    · intro j hj
      rw [h1]
      rcases List.mem_cons.mp hj with h | h
      · subst h
        exact pollCycle_tracks_mono details sendOut editOut now rest _ j htr1
      · exact ihtr j h
    · intro j hj
      rw [h2, List.filter_append, List.length_append]
      rcases List.mem_cons.mp hj with h | h
      · subst h
        have hone : (List.filter (fun e => e.isSend && (e.itemId == j))
            (pollStep details sendOut editOut now st j).events).length = 1 := by
          rw [hev, filter_singleton_true]
          · rfl
          · simp [Event.isSend, Event.itemId, hsid]
        have hzero : List.filter (fun e => e.isSend && (e.itemId == j))
            ((pollCycle details sendOut editOut now
              (pollStep details sendOut editOut now st j).storage rest).2) = [] := by
          rw [List.filter_eq_nil_iff]
          intro e he
          have hmem := pollCycle_events_itemId details sendOut editOut now rest _ hid2 e he
          simp only [Bool.and_eq_true, beq_iff_eq, not_and]
          intro _ hctr
          exact hnotin (hctr ▸ hmem)
        rw [hone, hzero]
        rfl
      · have hne : s.id ≠ j := by
          rw [hsid]
          intro hc
          exact hnotin (hc ▸ h)
        have hzero1 : (List.filter (fun e => e.isSend && (e.itemId == j))
            (pollStep details sendOut editOut now st id).events).length = 0 := by
          rw [hev, filter_singleton_false]
          · rfl
          · simp [Event.isSend, Event.itemId]
            exact hne
        rw [hzero1, ihcount j h]

theorem pollCycle_tracked_edits (details : Int → Option Story) (sendOut : Int → SendOutcome)
    (editOut : Int → EditOutcome) (now : Int) :
    ∀ (ids : List Int) (st : StorageData),
      ids.Nodup →
      (∀ id ∈ ids, st.tracks id = true) →
      (∀ id ∈ ids, ∃ s, details id = some s ∧ s.id = id ∧ s.shouldIgnore = false) →
      (∀ e ∈ (pollCycle details sendOut editOut now st ids).2, e.isEdit = true) ∧
      (∀ id ∈ ids,
        (((pollCycle details sendOut editOut now st ids).2).filter
          (fun e => e.isEdit && (e.itemId == id))).length = 1) := by
  intro ids
  induction ids with
  | nil =>
    intro st _ _ _
    constructor
    · intro e he
      rw [pollCycle_nil] at he
      simp at he
    · intro id h
      exact absurd h (List.not_mem_nil id)
  | cons id rest ih =>
    intro st hnd htr hdet
    obtain ⟨s, hd, hsid, hincl⟩ := hdet id (List.mem_cons_self id rest)
    have htrid := htr id (List.mem_cons_self id rest)
    have hex : ∃ stored, st.get? id = some stored := by
      unfold StorageData.tracks at htrid
      cases hgo : st.get? id with
      | none =>
        rw [hgo] at htrid
        simp at htrid
      | some stored => exact ⟨stored, rfl⟩
    obtain ⟨stored, hg⟩ := hex
    obtain ⟨hev, -, -⟩ :=
      pollStep_tracked_included details sendOut editOut now st id s stored hg hd hincl
    have hnotin : id ∉ rest := (List.nodup_cons.mp hnd).1
    have hnd2 : rest.Nodup := (List.nodup_cons.mp hnd).2
    have htr2 : ∀ j ∈ rest,
        ((pollStep details sendOut editOut now st id).storage).tracks j = true := by
      intro j hj
      exact pollStep_tracks_mono details sendOut editOut now st id j
        (htr j (List.mem_cons_of_mem id hj))
    have hdet2 : ∀ j ∈ rest, ∃ s2, details j = some s2 ∧ s2.id = j ∧ s2.shouldIgnore = false :=
      fun j hj => hdet j (List.mem_cons_of_mem id hj)
    obtain ⟨ihall, ihcount⟩ :=
      ih (pollStep details sendOut editOut now st id).storage hnd2 htr2 hdet2
    have hid2 : ∀ j ∈ rest, ∀ s2, details j = some s2 → s2.id = j := by
      intro j hj
      obtain ⟨s2, h2a, h2b, -⟩ := hdet2 j hj
      exact details_id_unique details j s2 h2a h2b
    have h2 : (pollCycle details sendOut editOut now st (id :: rest)).2 =
        (pollStep details sendOut editOut now st id).events ++
          (pollCycle details sendOut editOut now
            (pollStep details sendOut editOut now st id).storage rest).2 := by
      rw [pollCycle_cons]
    constructor
    · intro e he
      rw [h2] at he
      rcases List.mem_append.mp he with h | h
      · rw [hev] at h
        simp at h
        subst h
        rfl
      · exact ihall e h
    · intro j hj
      rw [h2, List.filter_append, List.length_append]
      rcases List.mem_cons.mp hj with h | h
      · subst h
        have hone : (List.filter (fun e => e.isEdit && (e.itemId == j))
            (pollStep details sendOut editOut now st j).events).length = 1 := by
          rw [hev, filter_singleton_true]
          · rfl
          · simp [Event.isEdit, Event.itemId, hsid]
        have hzero : List.filter (fun e => e.isEdit && (e.itemId == j))
            ((pollCycle details sendOut editOut now
              (pollStep details sendOut editOut now st j).storage rest).2) = [] := by
          rw [List.filter_eq_nil_iff]
          intro e he
          have hmem := pollCycle_events_itemId details sendOut editOut now rest _ hid2 e he
          simp only [Bool.and_eq_true, beq_iff_eq, not_and]
          intro _ hctr
          exact hnotin (hctr ▸ hmem)
        rw [hone, hzero]
        rfl
      · have hne : s.id ≠ j := by
          rw [hsid]
          intro hc
          exact hnotin (hc ▸ h)
        have hzero1 : (List.filter (fun e => e.isEdit && (e.itemId == j))
            (pollStep details sendOut editOut now st id).events).length = 0 := by
          rw [hev, filter_singleton_false]
          · rfl
          · simp [Event.isEdit, Event.itemId]
            exact hne
        rw [hzero1, ihcount j h]

/-! Concrete fixtures used in counterexamples and witnesses. -/

/-- A tracked story that passes the filter. -/
def storyA : Story :=
  { id := 1, url := "http://x", title := "T", descendants := 10, score := 80,
    type := "story", messageID := 7, lastSave := 0 }

/-- A freshly fetched detail for id 1 that passes the filter. -/
def freshA : Story :=
  { id := 1, url := "http://x", title := "T", descendants := 12, score := 90,
    type := "story", messageID := 0, lastSave := 0 }

/-- A freshly fetched detail for id 2 that passes the filter. -/
def freshB : Story :=
  { id := 2, url := "http://y", title := "U", descendants := 6, score := 55,
    type := "story", messageID := 0, lastSave := 0 }

/-- A freshly fetched detail for id 1 that the filter excludes
(descendants 3 < 5). -/
def excludedFresh : Story :=
  { id := 1, url := "http://x", title := "T", descendants := 3, score := 80,
    type := "story", messageID := 0, lastSave := 0 }

/-- The boundary story of claim C3: type story, non-empty URL, score
exactly 50, descendants exactly 5. -/
def boundaryStory : Story :=
  { id := 1, url := "http://x", title := "T", descendants := 5, score := 50,
    type := "story", messageID := 0, lastSave := 0 }

/-- A tracked record for id 2 as stored after an earlier cycle. -/
def storedC : Story :=
  { id := 2, url := "http://x", title := "T", descendants := 10, score := 50,
    type := "story", messageID := 9, lastSave := 5 }

/-- A later fetch of id 2 whose score and descendants have risen. -/
def freshC : Story :=
  { id := 2, url := "http://x", title := "T", descendants := 12, score := 60,
    type := "story", messageID := 0, lastSave := 0 }

/-- A detail source serving ids 1 and 2. -/
def detailsEx : Int → Option Story := fun i =>
  if i == 1 then some freshA else if i == 2 then some freshB else none

/-- The ignorable delete rejection description used in the C4 witness. -/
def descNF : String := "Bad Request: message to delete not found"

/-! The claims. -/

/-- Claim C1, counterexample: story 1 is tracked in the store and its
freshly fetched details (excludedFresh, 3 descendants) are excluded by the
filter, yet the poll step issues no Sink.edit call at all (empty event
list) — Bot.editMessage returns before the POST when shouldIgnore is true.
This refutes the claim that the edit is still issued for an item that is
tracked but now excluded. -/
theorem C1_counterexample :
    pollStep (fun i => if i == 1 then some excludedFresh else none)
      (fun _ => SendOutcome.postError) (fun _ => EditOutcome.resp "ok")
      50 ⟨[(1, storyA)]⟩ 1 =
      { storage := ⟨[(1, storyA)]⟩, events := [], flushed := false, errored := false } := by
  decide

/-- Claim C1 as amended: for a tracked item whose fresh details were
fetched, the item is indeed not un-tracked, but Sink.edit is issued if and
only if the refreshed details pass the filter: when included, exactly the
edit call with refreshed content is issued; when excluded, no sink call is
made at all. -/
theorem C1_edit_gated_by_filter (details : Int → Option Story) (sendOut : Int → SendOutcome)
    (editOut : Int → EditOutcome) (now : Int) (st : StorageData) (id : Int)
    (stored fresh : Story)
    (hst : st.get? id = some stored) (hdet : details id = some fresh) :
    (((pollStep details sendOut editOut now st id).storage).tracks id = true) ∧
    (fresh.shouldIgnore = false →
      (pollStep details sendOut editOut now st id).events =
        [Event.edit fresh.id stored.messageID
          (editMessageText { fresh with messageID := stored.messageID })
          (Story.getReplyMarkup { fresh with messageID := stored.messageID })]) ∧
    (fresh.shouldIgnore = true →
      (pollStep details sendOut editOut now st id).events = []) := by
  refine ⟨?_, ?_, ?_⟩
  · apply pollStep_tracks_mono
    unfold StorageData.tracks
    rw [hst]
    rfl
  · intro hincl
    exact (pollStep_tracked_included details sendOut editOut now st id
      fresh stored hst hdet hincl).1
  · intro hexc
    rw [pollStep_tracked_excluded details sendOut editOut now st id
      fresh stored hst hdet hexc]

/-- Witness for the amended claim C1 at a concrete tracked story. -/
theorem C1_witness :
    (StorageData.get? ⟨[(1, storyA)]⟩ 1 = some storyA ∧
      (fun _ : Int => some freshA) 1 = some freshA) ∧
    ((((pollStep (fun _ => some freshA) (fun _ => SendOutcome.postError)
        (fun _ => EditOutcome.resp "ok") 60 ⟨[(1, storyA)]⟩ 1).storage).tracks 1 = true) ∧
      (freshA.shouldIgnore = false →
        (pollStep (fun _ => some freshA) (fun _ => SendOutcome.postError)
          (fun _ => EditOutcome.resp "ok") 60 ⟨[(1, storyA)]⟩ 1).events =
          [Event.edit freshA.id storyA.messageID
            (editMessageText { freshA with messageID := storyA.messageID })
            (Story.getReplyMarkup { freshA with messageID := storyA.messageID })]) ∧
      (freshA.shouldIgnore = true →
        (pollStep (fun _ => some freshA) (fun _ => SendOutcome.postError)
          (fun _ => EditOutcome.resp "ok") 60 ⟨[(1, storyA)]⟩ 1).events = [])) :=
  ⟨⟨by decide, rfl⟩,
    C1_edit_gated_by_filter (fun _ => some freshA) (fun _ => SendOutcome.postError)
      (fun _ => EditOutcome.resp "ok") 60 ⟨[(1, storyA)]⟩ 1 storyA freshA
      (by decide) rfl⟩

/-- Claim C2, counterexample: with the snapshot present but malformed,
NewBot still returns ok — the process starts, with an empty tracked-item
map and only a logged warning (the Bool flag). This refutes the part of
the claim that a malformed snapshot is a fatal startup error. -/
theorem C2_counterexample :
    NewBot SnapshotState.malformed = (Except.ok { storage := ⟨[]⟩ }, true) := rfl

/-- Claim C2 as amended: if the snapshot is absent the bot starts with an
empty map and no warning; if it is present but malformed the bot still
starts (NewBot returns ok) with an empty map and the load failure is only
logged as a warning; a well-formed snapshot is loaded as is. -/
theorem C2_load_behaviour :
    NewBot SnapshotState.absent = (Except.ok { storage := ⟨[]⟩ }, false) ∧
    NewBot SnapshotState.malformed = (Except.ok { storage := ⟨[]⟩ }, true) ∧
    (∀ m, NewBot (SnapshotState.wellFormed m) = (Except.ok { storage := ⟨m⟩ }, false)) :=
  ⟨rfl, rfl, fun _ => rfl⟩

/-- Claim C3 (confirmed): the filter excludes an item iff its type tag is
not "story", or its score is below 50, or its descendant count is below 5,
or its URL is empty; in particular the boundary item with type "story",
non-empty URL, score exactly 50 and descendants exactly 5 is included. -/
theorem C3_filter_characterisation :
    (∀ s : Story, s.shouldIgnore = true ↔
      (s.type ≠ "story" ∨ s.score < 50 ∨ s.descendants < 5 ∨ s.url = "")) ∧
    boundaryStory.shouldIgnore = false := by
  constructor
  · intro s
    simp [Story.shouldIgnore, ScoreThreshold, NumCommentsThreshold]
    tauto
  · decide

/-- Claim C4 (confirmed): for a tracked item selected for deletion, a
delete response that is ok, or a failure that shouldIgnoreDeleteError
classifies as ignorable (error code 400 with one of the two descriptions),
results in the record being removed from the store and the store flushed;
any other delete failure (transport error, decode error, or an
unclassified rejection) leaves the store unchanged and unflushed. -/
theorem C4_delete_bookkeeping (st : StorageData) (story : Story) (out : DeleteOutcome) :
    (∀ ok ec desc, out = DeleteOutcome.resp ok ec desc →
      ((ok = true ∨ shouldIgnoreDeleteError ec desc = true) →
        (deleteMessage st story out).storage = st.erase story.id ∧
        (deleteMessage st story out).flushed = true) ∧
      (ok = false → shouldIgnoreDeleteError ec desc = false →
        (deleteMessage st story out).storage = st ∧
        (deleteMessage st story out).flushed = false)) ∧
    ((out = DeleteOutcome.postError ∨ out = DeleteOutcome.decodeError) →
      (deleteMessage st story out).storage = st ∧
      (deleteMessage st story out).flushed = false) := by
  constructor
  · intro ok ec desc ho
    subst ho
    constructor
    · intro hs
      unfold deleteMessage
      rcases hs with hs | hs
      · subst hs
        simp
      · simp [hs]
    · intro h1 h2
      subst h1
      unfold deleteMessage
      simp [h2]
  · intro ho
    rcases ho with ho | ho <;> subst ho <;> exact ⟨rfl, rfl⟩

/-- Witness for claim C4: a concrete 400 "message to delete not found"
rejection still removes the record and flushes. -/
theorem C4_witness :
    (DeleteOutcome.resp false 400 descNF =
        (DeleteOutcome.resp false 400 descNF : DeleteOutcome) ∧
      shouldIgnoreDeleteError 400 descNF = true) ∧
    ((deleteMessage ⟨[(1, storyA)]⟩ storyA (DeleteOutcome.resp false 400 descNF)).storage =
        StorageData.erase ⟨[(1, storyA)]⟩ storyA.id ∧
      (deleteMessage ⟨[(1, storyA)]⟩ storyA
        (DeleteOutcome.resp false 400 descNF)).flushed = true) :=
  ⟨⟨rfl, by decide⟩,
    ((C4_delete_bookkeeping ⟨[(1, storyA)]⟩ storyA
      (DeleteOutcome.resp false 400 descNF)).1 false 400 descNF rfl).1
      (Or.inr (by decide))⟩

/-- Claim C5, counterexample: the sink rejects the edit (the transport
succeeded but the response body reports a failure), yet because
Bot.editMessage never decodes the edit response, the record is updated
(lastSave refreshed to 99) and the store flushed anyway, and the function
reports no error — refuting the claim that a failed Sink.edit leaves the
TrackedItem unchanged. -/
theorem C5_counterexample :
    (editMessage ⟨[(1, storyA)]⟩ storyA
        (EditOutcome.resp "ok:false error_code:400 MESSAGE_ID_INVALID") 99).flushed = true ∧
    (editMessage ⟨[(1, storyA)]⟩ storyA
        (EditOutcome.resp "ok:false error_code:400 MESSAGE_ID_INVALID") 99).errored = false ∧
    StorageData.get? (editMessage ⟨[(1, storyA)]⟩ storyA
        (EditOutcome.resp "ok:false error_code:400 MESSAGE_ID_INVALID") 99).storage 1 =
      some { storyA with lastSave := 99 } := by
  decide

/-- Claim C5 as amended: the record is left unchanged and nothing is
flushed exactly when building the request or the HTTP POST itself fails;
once the POST succeeds at transport level, lastSave is updated and the
store flushed regardless of the response content, because the edit
response is never inspected. -/
theorem C5_edit_transport_gates_mutation (st : StorageData) (story : Story) (now : Int)
    (hincl : story.shouldIgnore = false) :
    ((editMessage st story EditOutcome.postError now).storage = st ∧
      (editMessage st story EditOutcome.postError now).flushed = false ∧
      (editMessage st story EditOutcome.postError now).errored = true) ∧
    (∀ body, (editMessage st story (EditOutcome.resp body) now).storage =
        saveStory st story now ∧
      (editMessage st story (EditOutcome.resp body) now).flushed = true) := by
  constructor
  · unfold editMessage
    simp [hincl]
  · intro body
    unfold editMessage
    simp [hincl]

/-- Witness for the amended claim C5 at a concrete story. -/
theorem C5_witness :
    storyA.shouldIgnore = false ∧
    (((editMessage ⟨[]⟩ storyA EditOutcome.postError 99).storage = ⟨[]⟩ ∧
      (editMessage ⟨[]⟩ storyA EditOutcome.postError 99).flushed = false ∧
      (editMessage ⟨[]⟩ storyA EditOutcome.postError 99).errored = true) ∧
    (∀ body, (editMessage ⟨[]⟩ storyA (EditOutcome.resp body) 99).storage =
        saveStory ⟨[]⟩ storyA 99 ∧
      (editMessage ⟨[]⟩ storyA (EditOutcome.resp body) 99).flushed = true)) :=
  ⟨by decide, C5_edit_transport_gates_mutation ⟨[]⟩ storyA 99 (by decide)⟩

/-- Claim C6 (confirmed): a candidate that is not tracked and whose fresh
details pass the filter triggers exactly one Sink.send with the rendered
content; the tracked record is created (carrying the handle returned by
that send, with the store flushed) iff the send succeeds; on any send
failure the store is unchanged, so no record is created. -/
theorem C6_send_create (details : Int → Option Story) (sendOut : Int → SendOutcome)
    (editOut : Int → EditOutcome) (now : Int) (st : StorageData) (id : Int) (s : Story)
    (hg : st.get? id = none) (hd : details id = some s) (hid : s.id = id)
    (hincl : s.shouldIgnore = false) :
    (pollStep details sendOut editOut now st id).events =
      [Event.send s.id (sendMessageText s) s.getReplyMarkup] ∧
    (∀ ec d mid, sendOut id = SendOutcome.resp true ec d mid →
      ((pollStep details sendOut editOut now st id).storage).get? id =
        some { s with messageID := mid, lastSave := now } ∧
      (pollStep details sendOut editOut now st id).flushed = true) ∧
    (sendOk (sendOut id) = false →
      ((pollStep details sendOut editOut now st id).storage).get? id = none ∧
      (pollStep details sendOut editOut now st id).flushed = false) := by
  obtain ⟨hev, hsucc, hfail⟩ :=
    pollStep_untracked_included details sendOut editOut now st id s hg hd hincl
  refine ⟨hev, ?_, ?_⟩
  · intro ec d mid ho
    obtain ⟨hs, hf⟩ := hsucc ec d mid ho
    refine ⟨?_, hf⟩
    rw [hs, StorageData.get?_put, if_pos]
    exact hid.symm
  · intro hko
    obtain ⟨hs, hf⟩ := hfail hko
    rw [hs]
    exact ⟨hg, hf⟩

/-- Witness for claim C6: a fresh included candidate, a successful send
returning handle 42, and the stored record carrying that handle. -/
theorem C6_witness :
    (StorageData.get? ⟨[]⟩ 1 = none ∧ (fun _ : Int => some freshA) 1 = some freshA ∧
      freshA.id = 1 ∧ freshA.shouldIgnore = false) ∧
    ((pollStep (fun _ => some freshA) (fun _ => SendOutcome.resp true 0 "" 42)
        (fun _ => EditOutcome.resp "ok") 60 ⟨[]⟩ 1).events =
      [Event.send freshA.id (sendMessageText freshA) freshA.getReplyMarkup] ∧
      StorageData.get? (pollStep (fun _ => some freshA)
        (fun _ => SendOutcome.resp true 0 "" 42)
        (fun _ => EditOutcome.resp "ok") 60 ⟨[]⟩ 1).storage 1 =
        some { freshA with messageID := 42, lastSave := 60 } ∧
      (pollStep (fun _ => some freshA) (fun _ => SendOutcome.resp true 0 "" 42)
        (fun _ => EditOutcome.resp "ok") 60 ⟨[]⟩ 1).flushed = true) :=
  ⟨⟨rfl, rfl, rfl, by decide⟩,
    (C6_send_create (fun _ => some freshA) (fun _ => SendOutcome.resp true 0 "" 42)
      (fun _ => EditOutcome.resp "ok") 60 ⟨[]⟩ 1 freshA rfl rfl rfl (by decide)).1,
    ((C6_send_create (fun _ => some freshA) (fun _ => SendOutcome.resp true 0 "" 42)
      (fun _ => EditOutcome.resp "ok") 60 ⟨[]⟩ 1 freshA rfl rfl rfl (by decide)).2.1
      0 "" 42 rfl).1,
    ((C6_send_create (fun _ => some freshA) (fun _ => SendOutcome.resp true 0 "" 42)
      (fun _ => EditOutcome.resp "ok") 60 ⟨[]⟩ 1 freshA rfl rfl rfl (by decide)).2.1
      0 "" 42 rfl).2⟩

/-- Claim C7 (confirmed): with an unchanged candidate list of distinct
ids, none of them tracked initially, every id fetched with matching
details that pass the filter, and every first-cycle send succeeding, two
consecutive poll cycles issue exactly one send per included item (in the
first cycle); in the second cycle every sink call is an edit (exactly one
per item) and no send occurs — the store lookup gates the create path. -/
theorem C7_two_cycle_idempotence (details : Int → Option Story)
    (send1 send2 : Int → SendOutcome) (edit1 edit2 : Int → EditOutcome) (t1 t2 : Int)
    (ids : List Int) (st0 : StorageData)
    (hnodup : ids.Nodup)
    (hfresh : ∀ id ∈ ids, st0.get? id = none)
    (hdet : ∀ id ∈ ids, ∃ s, details id = some s ∧ s.id = id ∧ s.shouldIgnore = false)
    (hok : ∀ id ∈ ids, sendOk (send1 id) = true) :
    (∀ id ∈ ids,
      (((pollCycle details send1 edit1 t1 st0 ids).2).filter
        (fun e => e.isSend && (e.itemId == id))).length = 1) ∧
    (∀ e ∈ (pollCycle details send2 edit2 t2
        (pollCycle details send1 edit1 t1 st0 ids).1 ids).2, e.isEdit = true) ∧
    ((pollCycle details send2 edit2 t2
        (pollCycle details send1 edit1 t1 st0 ids).1 ids).2).filter Event.isSend = [] ∧
    (∀ id ∈ ids,
      (((pollCycle details send2 edit2 t2
          (pollCycle details send1 edit1 t1 st0 ids).1 ids).2).filter
        (fun e => e.isEdit && (e.itemId == id))).length = 1) := by
  obtain ⟨htr, hcount⟩ :=
    pollCycle_fresh_included details send1 edit1 t1 ids st0 hnodup hfresh hdet hok
  obtain ⟨hall, hecount⟩ :=
    pollCycle_tracked_edits details send2 edit2 t2 ids
      (pollCycle details send1 edit1 t1 st0 ids).1 hnodup htr hdet
  refine ⟨hcount, hall, ?_, hecount⟩
  rw [List.filter_eq_nil_iff]
  intro e he
  have hisedit := hall e he
  cases e with
  | send i t m => simp [Event.isEdit] at hisedit
  | edit i m t mk => simp [Event.isSend]
  | del i m => simp [Event.isEdit] at hisedit

/-- Witness for claim C7: two concrete cycles over candidate ids 1 and 2,
starting from an empty store. -/
theorem C7_witness :
    (([1, 2] : List Int).Nodup ∧
      (∀ id ∈ ([1, 2] : List Int), StorageData.get? ⟨[]⟩ id = none) ∧
      (∀ id ∈ ([1, 2] : List Int),
        sendOk ((fun _ => SendOutcome.resp true 0 "" 42) id) = true)) ∧
    (∀ id ∈ ([1, 2] : List Int),
      (((pollCycle detailsEx (fun _ => SendOutcome.resp true 0 "" 42)
          (fun _ => EditOutcome.resp "ok") 10 ⟨[]⟩ [1, 2]).2).filter
        (fun e => e.isSend && (e.itemId == id))).length = 1) ∧
    ((pollCycle detailsEx (fun _ => SendOutcome.resp true 0 "" 43)
        (fun _ => EditOutcome.resp "ok") 20
        (pollCycle detailsEx (fun _ => SendOutcome.resp true 0 "" 42)
          (fun _ => EditOutcome.resp "ok") 10 ⟨[]⟩ [1, 2]).1 [1, 2]).2).filter
      Event.isSend = [] := by
  have hdet : ∀ id ∈ ([1, 2] : List Int),
      ∃ s, detailsEx id = some s ∧ s.id = id ∧ s.shouldIgnore = false := by
    intro id hid
    rcases List.mem_cons.mp hid with h | h
    · subst h
      exact ⟨freshA, rfl, rfl, by decide⟩
    · rcases List.mem_cons.mp h with h2 | h2
      · subst h2
        exact ⟨freshB, rfl, rfl, by decide⟩
      · exact absurd h2 (List.not_mem_nil id)
  have main := C7_two_cycle_idempotence detailsEx
    (fun _ => SendOutcome.resp true 0 "" 42) (fun _ => SendOutcome.resp true 0 "" 43)
    (fun _ => EditOutcome.resp "ok") (fun _ => EditOutcome.resp "ok") 10 20
    [1, 2] ⟨[]⟩ (by decide) (by decide) hdet (by decide)
  exact ⟨⟨by decide, by decide, by decide⟩, main.1, main.2.2.1⟩

/-- Claim C8, counterexample: id 2 is tracked as storedC (score 50,
descendants 10, handle 9); the fresh fetch freshC has score 60 and
descendants 12; after a successful edit the stored record carries score 60
and descendants 12 — fields other than lastSave changed, refuting the
claim that only lastSyncedAt is mutated (the handle 9 did stay). -/
theorem C8_counterexample :
    StorageData.get? (pollStep (fun i => if i == 2 then some freshC else none)
        (fun _ => SendOutcome.postError) (fun _ => EditOutcome.resp "ok") 77
        ⟨[(2, storedC)]⟩ 2).storage 2 =
      some { id := 2, url := "http://x", title := "T", descendants := 12, score := 60,
             type := "story", messageID := 9, lastSave := 77 } ∧
    storedC.score = 50 ∧ storedC.descendants = 10 ∧ storedC.messageID = 9 := by
  decide

/-- Claim C8 as amended: a successful edit keeps the item id and the
outbound handle (messageID) of the stored record and sets lastSave to the
current time, but the remaining fields (url, title, score, descendants,
type) are replaced by the freshly fetched values, which may differ from
the previously stored ones. -/
theorem C8_edit_record_update (details : Int → Option Story) (sendOut : Int → SendOutcome)
    (editOut : Int → EditOutcome) (now : Int) (st : StorageData) (id : Int)
    (stored fresh : Story) (body : String)
    (hst : st.get? id = some stored) (hdet : details id = some fresh)
    (hid : fresh.id = id) (hincl : fresh.shouldIgnore = false)
    (hedit : editOut id = EditOutcome.resp body) :
    ((pollStep details sendOut editOut now st id).storage).get? id =
      some { fresh with messageID := stored.messageID, lastSave := now } := by
  obtain ⟨-, hsucc, -⟩ :=
    pollStep_tracked_included details sendOut editOut now st id fresh stored hst hdet hincl
  obtain ⟨hs, -⟩ := hsucc body hedit
  rw [hs, StorageData.get?_put, if_pos]
  exact hid.symm

/-- Witness for the amended claim C8 at the concrete stored and fresh
records of the counterexample. -/
theorem C8_witness :
    (StorageData.get? ⟨[(2, storedC)]⟩ 2 = some storedC ∧
      (fun _ : Int => some freshC) 2 = some freshC ∧ freshC.id = 2 ∧
      freshC.shouldIgnore = false ∧
      (fun _ : Int => EditOutcome.resp "ok") 2 = EditOutcome.resp "ok") ∧
    StorageData.get? (pollStep (fun _ => some freshC) (fun _ => SendOutcome.postError)
        (fun _ => EditOutcome.resp "ok") 77 ⟨[(2, storedC)]⟩ 2).storage 2 =
      some { freshC with messageID := storedC.messageID, lastSave := 77 } :=
  ⟨⟨by decide, rfl, rfl, by decide, rfl⟩,
    C8_edit_record_update (fun _ => some freshC) (fun _ => SendOutcome.postError)
      (fun _ => EditOutcome.resp "ok") 77 ⟨[(2, storedC)]⟩ 2 storedC freshC "ok"
      (by decide) rfl rfl (by decide) rfl⟩

/-- Claim C9, counterexample: for freshA (score 90, descendants 12, no hot
markers) the actual button labels are "Score: 90+" and "Comments: 12+" —
the Go format string "Score: %d+%s" inserts a literal plus sign — and not
the labels "Score: 90" and "Comments: 12" that the claim describes. -/
theorem C9_counterexample :
    (Story.getReplyMarkup freshA).inlineKeyboard.map
        (fun row => row.map (fun b => b.text)) = [["Score: 90+", "Comments: 12+"]] ∧
    ¬ (Story.getReplyMarkup freshA).inlineKeyboard.map
        (fun row => row.map (fun b => b.text)) = [["Score: 90", "Comments: 12"]] := by
  decide

/-- Claim C9 as amended: the rendered message is identical for create and
update — bold escaped title plus URL — and the markup is exactly one row
of two inline buttons: "Score: N+" (with a hot marker appended iff
score > 100) linking to the item URL, and "Comments: N+" (with a hot
marker iff descendants > 100) linking to the Hacker News discussion
page. -/
theorem C9_rendering (s : Story) :
    sendMessageText s = editMessageText s ∧
    sendMessageText s = "<b>" ++ escapeString s.title ++ "</b>  " ++ s.url ∧
    Story.getReplyMarkup s =
      { inlineKeyboard :=
          [[{ text := "Score: " ++ toString s.score ++ "+" ++
                (if s.score > 100 then " " ++ Hot else ""),
              url := s.url },
            { text := "Comments: " ++ toString s.descendants ++ "+" ++
                (if s.descendants > 100 then " " ++ Hot else ""),
              url := newsURL s.id }]] } :=
  ⟨rfl, rfl, rfl⟩

/-- Claim C10 (confirmed): for an item that is tracked but whose freshly
fetched details are excluded by the filter, the poll step makes no sink
call and returns the store completely unchanged (no flush, no error), so
lastSave is not refreshed and the Janitor selection is unaffected — the
record keeps aging toward the cleanup cutoff. -/
theorem C10_excluded_tracked_frame (details : Int → Option Story)
    (sendOut : Int → SendOutcome) (editOut : Int → EditOutcome) (now : Int)
    (st : StorageData) (id : Int) (stored fresh : Story)
    (hst : st.get? id = some stored) (hdet : details id = some fresh)
    (hexc : fresh.shouldIgnore = true) :
    pollStep details sendOut editOut now st id =
      { storage := st, events := [], flushed := false, errored := false } ∧
    (∀ t, cleanupSelect (pollStep details sendOut editOut now st id).storage t =
      cleanupSelect st t) := by
  have h := pollStep_tracked_excluded details sendOut editOut now st id
    fresh stored hst hdet hexc
  exact ⟨h, fun t => by rw [h]⟩

/-- Witness for claim C10 at a concrete tracked story with excluded fresh
details. -/
theorem C10_witness :
    (StorageData.get? ⟨[(1, storyA)]⟩ 1 = some storyA ∧
      (fun _ : Int => some excludedFresh) 1 = some excludedFresh ∧
      excludedFresh.shouldIgnore = true) ∧
    pollStep (fun _ => some excludedFresh) (fun _ => SendOutcome.postError)
      (fun _ => EditOutcome.resp "ok") 88 ⟨[(1, storyA)]⟩ 1 =
      { storage := ⟨[(1, storyA)]⟩, events := [], flushed := false, errored := false } :=
  ⟨⟨by decide, rfl, by decide⟩,
    (C10_excluded_tracked_frame (fun _ => some excludedFresh)
      (fun _ => SendOutcome.postError) (fun _ => EditOutcome.resp "ok") 88
      ⟨[(1, storyA)]⟩ 1 storyA excludedFresh (by decide) rfl (by decide)).1⟩
